import Mathlib

/-!
Verification of the EAR (Eye Aspect Ratio) computation of the ScentSafe
repository (`test_asymmetric_eyes.py`), shallowly embedded over the reals.

Python runtime failures are made explicit: list subscripting out of range
raises an index error, and float division by zero raises a zero-division
error, so every fallible function returns `Except PyError ℝ`.
-/

/-- A 2-D landmark point: the Python two-element list `[x, y]` of real
coordinates. -/
abbrev Point : Type := ℝ × ℝ

/-- The Python runtime errors the script can raise: subscripting a list out
of range, and dividing a float by zero. -/
inductive PyError where
  | indexError : PyError
  | zeroDivisionError : PyError
deriving DecidableEq

/-- Python list subscript `p[i]`: the element when `i` is in range, an index
error otherwise. -/
def pyGet (p : List Point) (i : Nat) : Except PyError Point :=
  match p[i]? with
  | some v => Except.ok v
  | none => Except.error PyError.indexError

/-- Embeds `calculate_distance(p1, p2)` of `test_asymmetric_eyes.py`:
`((p1[0] - p2[0])**2 + (p1[1] - p2[1])**2)**0.5`. -/
noncomputable def calculate_distance (p1 p2 : Point) : ℝ :=
  Real.sqrt ((p1.1 - p2.1) ^ 2 + (p1.2 - p2.2) ^ 2)

/-- Embeds `calculate_ear(eye_points)` of `test_asymmetric_eyes.py`:
`A = calculate_distance(p[1], p[5])`, `B = calculate_distance(p[2], p[4])`,
`C = calculate_distance(p[0], p[3])`, returning `(A + B) / (2.0 * C)`.
Subscripts are evaluated in Python order, and the final division raises a
zero-division error when the divisor `2.0 * C` is zero. -/
noncomputable def calculate_ear (eye_points : List Point) : Except PyError ℝ := do
  let q1 ← pyGet eye_points 1
  let q5 ← pyGet eye_points 5
  let A := calculate_distance q1 q5
  let q2 ← pyGet eye_points 2
  let q4 ← pyGet eye_points 4
  let B := calculate_distance q2 q4
  let q0 ← pyGet eye_points 0
  let q3 ← pyGet eye_points 3
  let C := calculate_distance q0 q3
  if 2 * C = 0 then Except.error PyError.zeroDivisionError
  else Except.ok ((A + B) / (2 * C))

/-- Embeds `calculate_percentage_difference(ear1, ear2)` of
`test_asymmetric_eyes.py`: `abs(ear1 - ear2) / ((ear1 + ear2) / 2.0) * 100.0`,
raising a zero-division error when the divisor `(ear1 + ear2) / 2.0` is
zero. -/
noncomputable def calculate_percentage_difference (ear1 ear2 : ℝ) :
    Except PyError ℝ :=
  if (ear1 + ear2) / 2 = 0 then Except.error PyError.zeroDivisionError
  else Except.ok (|ear1 - ear2| / ((ear1 + ear2) / 2) * 100)

/-- Embeds `generate_eye_points(center_x, center_y, eye_width, eye_height)` of
`test_asymmetric_eyes.py`, with the source's own labels: left corner, right
corner, top center, bottom center, top left, top right. -/
noncomputable def generate_eye_points
    (center_x center_y eye_width eye_height : ℝ) : List Point :=
  [ (center_x - eye_width / 2, center_y),
    (center_x + eye_width / 2, center_y),
    (center_x, center_y - eye_height / 2),
    (center_x, center_y + eye_height / 2),
    (center_x - eye_width / 4, center_y - eye_height / 2),
    (center_x + eye_width / 4, center_y - eye_height / 2) ]

/-- Modelled from the spec's words for the distance refinement: the Euclidean
distance between two 2-D points, taken from Mathlib's metric on the complex
plane (the Euclidean metric on the plane ℝ²). -/
noncomputable def euclideanDistance (p q : Point) : ℝ :=
  dist (⟨p.1, p.2⟩ : ℂ) (⟨q.1, q.2⟩ : ℂ)

/-- Evaluation of `calculate_ear` on any list holding at least six points:
the subscripts all succeed and only the final division can fail. -/
theorem calculate_ear_cons (p0 p1 p2 p3 p4 p5 : Point) (rest : List Point) :
    calculate_ear (p0 :: p1 :: p2 :: p3 :: p4 :: p5 :: rest) =
      if 2 * calculate_distance p0 p3 = 0 then
        Except.error PyError.zeroDivisionError
      else
        Except.ok ((calculate_distance p1 p5 + calculate_distance p2 p4) /
          (2 * calculate_distance p0 p3)) := by
  simp only [calculate_ear, pyGet, List.getElem?_cons_zero, List.getElem?_cons_succ,
    Except.bind]
  rfl

/-- The embedded distance is a nonnegative real. -/
theorem calculate_distance_nonneg (p q : Point) :
    0 ≤ calculate_distance p q :=
  Real.sqrt_nonneg _

/-- The embedded distance of the code agrees with the spec's Euclidean
distance. -/
theorem calculate_distance_eq_euclideanDistance (p q : Point) :
    calculate_distance p q = euclideanDistance p q := by
  unfold calculate_distance euclideanDistance
  rw [Complex.dist_eq_re_im]

/-- Distance from a point to itself is zero. -/
theorem calculate_distance_self (p : Point) : calculate_distance p p = 0 := by
  simp [calculate_distance]

/-- Concrete distance used by several witnesses below. -/
theorem calculate_distance_unit :
    calculate_distance ((0 : ℝ), (0 : ℝ)) ((1 : ℝ), (0 : ℝ)) = 1 := by
  unfold calculate_distance
  norm_num

/-- The spec-side Euclidean distance between (0,0) and (1,0) is 1. -/
theorem euclideanDistance_unit :
    euclideanDistance ((0 : ℝ), (0 : ℝ)) ((1 : ℝ), (0 : ℝ)) = 1 := by
  rw [← calculate_distance_eq_euclideanDistance, calculate_distance_unit]

/-- Claim C1: on a list of six 2-D points whose horizontal reference distance
is nonzero, `calculate_ear` returns `(A + B) / (2 * C)`, where `A` is the
Euclidean distance between points 1 and 5, `B` the Euclidean distance between
points 2 and 4, and `C` the Euclidean distance between points 0 and 3. -/
theorem C1_computeEAR_formula (p0 p1 p2 p3 p4 p5 : Point)
    (hC : euclideanDistance p0 p3 ≠ 0) :
    calculate_ear [p0, p1, p2, p3, p4, p5] =
      Except.ok ((euclideanDistance p1 p5 + euclideanDistance p2 p4) /
        (2 * euclideanDistance p0 p3)) := by
  have h2 : (2 : ℝ) * calculate_distance p0 p3 ≠ 0 := by
    rw [calculate_distance_eq_euclideanDistance]
    intro h
    exact hC (by linarith)
  rw [calculate_ear_cons, if_neg h2, calculate_distance_eq_euclideanDistance p0 p3,
    calculate_distance_eq_euclideanDistance p1 p5,
    calculate_distance_eq_euclideanDistance p2 p4]

/-- Claim C1 witness: the formula instantiated at a concrete six-point list
with unit horizontal reference distance. -/
theorem C1_computeEAR_formula_witness :
    euclideanDistance ((0 : ℝ), (0 : ℝ)) ((1 : ℝ), (0 : ℝ)) ≠ 0 ∧
    calculate_ear [((0 : ℝ), (0 : ℝ)), ((0 : ℝ), (0 : ℝ)), ((0 : ℝ), (0 : ℝ)),
        ((1 : ℝ), (0 : ℝ)), ((0 : ℝ), (0 : ℝ)), ((0 : ℝ), (0 : ℝ))] =
      Except.ok ((euclideanDistance ((0 : ℝ), (0 : ℝ)) ((0 : ℝ), (0 : ℝ)) +
          euclideanDistance ((0 : ℝ), (0 : ℝ)) ((0 : ℝ), (0 : ℝ))) /
        (2 * euclideanDistance ((0 : ℝ), (0 : ℝ)) ((1 : ℝ), (0 : ℝ)))) := by
  have h : euclideanDistance ((0 : ℝ), (0 : ℝ)) ((1 : ℝ), (0 : ℝ)) ≠ 0 := by
    rw [euclideanDistance_unit]
    norm_num
  exact ⟨h, C1_computeEAR_formula _ _ _ _ _ _ h⟩

/-- Claim C2: when points[0] equals points[3], the horizontal reference
distance is zero and `calculate_ear` fails with the zero-division error (the
code's realization of the spec's degenerate-geometry failure); no number,
infinity or otherwise, is returned. -/
theorem C2_degenerate_corners_fail (p0 p1 p2 p4 p5 : Point) :
    calculate_ear [p0, p1, p2, p0, p4, p5] =
      Except.error PyError.zeroDivisionError := by
  rw [calculate_ear_cons, calculate_distance_self, mul_zero, if_pos rfl]

/-- Claim C3 counterexample: a seven-point list, whose length is not 6, on
which `calculate_ear` proceeds and returns a value instead of failing. -/
theorem C3_counterexample :
    ([((0 : ℝ), (0 : ℝ)), ((0 : ℝ), (0 : ℝ)), ((0 : ℝ), (0 : ℝ)),
        ((1 : ℝ), (0 : ℝ)), ((0 : ℝ), (0 : ℝ)), ((0 : ℝ), (0 : ℝ)),
        ((0 : ℝ), (0 : ℝ))] : List Point).length ≠ 6 ∧
    calculate_ear [((0 : ℝ), (0 : ℝ)), ((0 : ℝ), (0 : ℝ)), ((0 : ℝ), (0 : ℝ)),
        ((1 : ℝ), (0 : ℝ)), ((0 : ℝ), (0 : ℝ)), ((0 : ℝ), (0 : ℝ)),
        ((0 : ℝ), (0 : ℝ))] = Except.ok 0 := by
  refine ⟨by simp, ?_⟩
  rw [calculate_ear_cons, calculate_distance_unit, calculate_distance_self,
    if_neg (by norm_num)]
  norm_num

/-- Claim C3 amended: any list of fewer than six points makes `calculate_ear`
fail with the index error raised by the out-of-range subscript. -/
theorem C3_short_input_fails (p : List Point) (h : p.length < 6) :
    calculate_ear p = Except.error PyError.indexError := by
  rcases p with _ | ⟨a, _ | ⟨b, _ | ⟨c, _ | ⟨d, _ | ⟨e, _ | ⟨f, t⟩⟩⟩⟩⟩⟩
  · rfl
  · rfl
  · rfl
  · rfl
  · rfl
  · rfl
  · simp only [List.length_cons] at h
    omega

/-- Claim C3 amended witness: the empty list is rejected. -/
theorem C3_short_input_fails_witness :
    ([] : List Point).length < 6 ∧
    calculate_ear ([] : List Point) = Except.error PyError.indexError :=
  ⟨by simp, C3_short_input_fails [] (by simp)⟩

/-- Claim C9: the percentage difference of a nonzero value with itself is
zero. -/
theorem C9_percentage_difference_self (x : ℝ) (hx : x ≠ 0)
    (hxx : x + x ≠ 0) :
    calculate_percentage_difference x x = Except.ok 0 := by
  unfold calculate_percentage_difference
  rw [if_neg]
  · norm_num
  · intro h
    exact hxx (by linarith)

/-- Claim C9 witness: instantiated at 1. -/
theorem C9_percentage_difference_self_witness :
    (1 : ℝ) ≠ 0 ∧ (1 : ℝ) + 1 ≠ 0 ∧
    calculate_percentage_difference 1 1 = Except.ok 0 :=
  ⟨one_ne_zero, by norm_num,
    C9_percentage_difference_self 1 one_ne_zero (by norm_num)⟩

/-- Closed form of `calculate_ear` on a generated synthetic eye with positive
width: the ratio depends only on the eye width and the eye height. -/
theorem calculate_ear_generate (cx cy w h : ℝ) (hw : 0 < w) :
    calculate_ear (generate_eye_points cx cy w h) =
      Except.ok ((Real.sqrt (w ^ 2 / 16 + h ^ 2 / 4) + w / 4) /
        (2 * Real.sqrt (w ^ 2 / 4 + h ^ 2 / 4))) := by
  have hA : calculate_distance (cx + w / 2, cy) (cx + w / 4, cy - h / 2) =
      Real.sqrt (w ^ 2 / 16 + h ^ 2 / 4) := by
    unfold calculate_distance
    dsimp only
    congr 1
    ring
  have hB : calculate_distance (cx, cy - h / 2) (cx - w / 4, cy - h / 2) =
      w / 4 := by
    unfold calculate_distance
    dsimp only
    rw [show (cx - (cx - w / 4)) ^ 2 + (cy - h / 2 - (cy - h / 2)) ^ 2
        = (w / 4) ^ 2 by ring]
    exact Real.sqrt_sq (by linarith)
  have hC : calculate_distance (cx - w / 2, cy) (cx, cy + h / 2) =
      Real.sqrt (w ^ 2 / 4 + h ^ 2 / 4) := by
    unfold calculate_distance
    dsimp only
    congr 1
    ring
  have hCpos : 0 < Real.sqrt (w ^ 2 / 4 + h ^ 2 / 4) :=
    Real.sqrt_pos.mpr (by nlinarith [sq_nonneg h, sq_nonneg w])
  unfold generate_eye_points
  rw [calculate_ear_cons, hA, hB, hC, if_neg (by intro hcontra; linarith)]

/-- Claim C5: multiplying both coordinates of all six points by a positive
factor leaves the result of `calculate_ear` unchanged. -/
theorem C5_scale_invariance (k : ℝ) (p0 p1 p2 p3 p4 p5 : Point)
    (hk : 0 < k) (hC : 0 < calculate_distance p0 p3) :
    calculate_ear
        ([p0, p1, p2, p3, p4, p5].map fun q => (k * q.1, k * q.2)) =
      calculate_ear [p0, p1, p2, p3, p4, p5] := by
  have hd : ∀ a b : Point,
      calculate_distance (k * a.1, k * a.2) (k * b.1, k * b.2) =
        k * calculate_distance a b := by
    intro a b
    unfold calculate_distance
    dsimp only
    rw [show (k * a.1 - k * b.1) ^ 2 + (k * a.2 - k * b.2) ^ 2
        = k ^ 2 * ((a.1 - b.1) ^ 2 + (a.2 - b.2) ^ 2) by ring,
      Real.sqrt_mul (sq_nonneg k), Real.sqrt_sq hk.le]
  have hCkpos : (0 : ℝ) < k * calculate_distance p0 p3 := mul_pos hk hC
  simp only [List.map_cons, List.map_nil]
  rw [calculate_ear_cons, calculate_ear_cons, hd, hd, hd,
    if_neg (by intro hcontra; linarith), if_neg (by intro hcontra; linarith)]
  congr 1
  have hkne : k ≠ 0 := ne_of_gt hk
  have hCne : calculate_distance p0 p3 ≠ 0 := ne_of_gt hC
  field_simp
  ring

/-- Claim C5 witness: doubling a concrete six-point set with unit horizontal
reference distance. -/
theorem C5_scale_invariance_witness :
    (0 : ℝ) < 2 ∧
    0 < calculate_distance ((0 : ℝ), (0 : ℝ)) ((1 : ℝ), (0 : ℝ)) ∧
    calculate_ear
        ([((0 : ℝ), (0 : ℝ)), ((0 : ℝ), (0 : ℝ)), ((0 : ℝ), (0 : ℝ)),
          ((1 : ℝ), (0 : ℝ)), ((0 : ℝ), (0 : ℝ)), ((0 : ℝ), (0 : ℝ))].map
          fun q => (2 * q.1, 2 * q.2)) =
      calculate_ear [((0 : ℝ), (0 : ℝ)), ((0 : ℝ), (0 : ℝ)), ((0 : ℝ), (0 : ℝ)),
        ((1 : ℝ), (0 : ℝ)), ((0 : ℝ), (0 : ℝ)), ((0 : ℝ), (0 : ℝ))] := by
  have h : (0 : ℝ) < calculate_distance ((0 : ℝ), (0 : ℝ)) ((1 : ℝ), (0 : ℝ)) := by
    rw [calculate_distance_unit]
    norm_num
  exact ⟨by norm_num, h, C5_scale_invariance 2 _ _ _ _ _ _ (by norm_num) h⟩

/-- Claim C6: the EAR of a generated synthetic eye depends only on its width
and height, not on its center. -/
theorem C6_position_independence (cx1 cy1 cx2 cy2 w h : ℝ)
    (hw : 0 < w) (hh : 0 < h) :
    calculate_ear (generate_eye_points cx1 cy1 w h) =
      calculate_ear (generate_eye_points cx2 cy2 w h) := by
  rw [calculate_ear_generate cx1 cy1 w h hw,
    calculate_ear_generate cx2 cy2 w h hw]

/-- Claim C6 witness: the symmetric eye at center (320,240) with width 20.0
and height 10.0 versus the mirrored center (380,240) with the same width and
height, as in `simulate_old_behavior`. -/
theorem C6_position_independence_witness :
    (0 : ℝ) < 20.0 ∧ (0 : ℝ) < 10.0 ∧
    calculate_ear (generate_eye_points 320 240 20.0 10.0) =
      calculate_ear (generate_eye_points 380 240 20.0 10.0) :=
  ⟨by norm_num, by norm_num,
    C6_position_independence 320 240 380 240 20.0 10.0 (by norm_num)
      (by norm_num)⟩

/-- Claim C8: on a six-point list whose horizontal reference distance is
positive, `calculate_ear` returns a nonnegative real. -/
theorem C8_result_nonneg (p0 p1 p2 p3 p4 p5 : Point)
    (hC : 0 < calculate_distance p0 p3) :
    ∃ v : ℝ, calculate_ear [p0, p1, p2, p3, p4, p5] = Except.ok v ∧
      0 ≤ v := by
  rw [calculate_ear_cons, if_neg (by intro hcontra; linarith)]
  exact ⟨_, rfl, div_nonneg
    (add_nonneg (calculate_distance_nonneg _ _) (calculate_distance_nonneg _ _))
    (by linarith)⟩

/-- Claim C8 witness: a concrete six-point list with unit horizontal
reference distance. -/
theorem C8_result_nonneg_witness :
    0 < calculate_distance ((0 : ℝ), (0 : ℝ)) ((1 : ℝ), (0 : ℝ)) ∧
    ∃ v : ℝ, calculate_ear [((0 : ℝ), (0 : ℝ)), ((0 : ℝ), (0 : ℝ)),
        ((0 : ℝ), (0 : ℝ)), ((1 : ℝ), (0 : ℝ)), ((0 : ℝ), (0 : ℝ)),
        ((0 : ℝ), (0 : ℝ))] = Except.ok v ∧ 0 ≤ v := by
  have h : (0 : ℝ) < calculate_distance ((0 : ℝ), (0 : ℝ)) ((1 : ℝ), (0 : ℝ)) := by
    rw [calculate_distance_unit]
    norm_num
  exact ⟨h, C8_result_nonneg _ _ _ _ _ _ h⟩

/-- Claim C10: on a list of more than six points whose first six have a
nonzero horizontal reference distance, `calculate_ear` raises no error and
returns the same value as on the truncation to the first six points. -/
theorem C10_extra_points_ignored (p0 p1 p2 p3 p4 p5 p6 : Point)
    (rest : List Point) (hC : calculate_distance p0 p3 ≠ 0) :
    calculate_ear (p0 :: p1 :: p2 :: p3 :: p4 :: p5 :: p6 :: rest) =
      calculate_ear [p0, p1, p2, p3, p4, p5] ∧
    ∃ v : ℝ, calculate_ear (p0 :: p1 :: p2 :: p3 :: p4 :: p5 :: p6 :: rest) =
      Except.ok v := by
  have h2 : ¬ ((2 : ℝ) * calculate_distance p0 p3 = 0) := by
    intro hcontra
    exact hC (by linarith)
  constructor
  · rw [calculate_ear_cons, calculate_ear_cons]
  · rw [calculate_ear_cons, if_neg h2]
    exact ⟨_, rfl⟩

/-- Claim C10 witness: a concrete seven-point list. -/
theorem C10_extra_points_ignored_witness :
    calculate_distance ((0 : ℝ), (0 : ℝ)) ((1 : ℝ), (0 : ℝ)) ≠ 0 ∧
    (calculate_ear [((0 : ℝ), (0 : ℝ)), ((0 : ℝ), (0 : ℝ)), ((0 : ℝ), (0 : ℝ)),
        ((1 : ℝ), (0 : ℝ)), ((0 : ℝ), (0 : ℝ)), ((0 : ℝ), (0 : ℝ)),
        ((5 : ℝ), (5 : ℝ))] =
      calculate_ear [((0 : ℝ), (0 : ℝ)), ((0 : ℝ), (0 : ℝ)), ((0 : ℝ), (0 : ℝ)),
        ((1 : ℝ), (0 : ℝ)), ((0 : ℝ), (0 : ℝ)), ((0 : ℝ), (0 : ℝ))] ∧
    ∃ v : ℝ, calculate_ear [((0 : ℝ), (0 : ℝ)), ((0 : ℝ), (0 : ℝ)),
        ((0 : ℝ), (0 : ℝ)), ((1 : ℝ), (0 : ℝ)), ((0 : ℝ), (0 : ℝ)),
        ((0 : ℝ), (0 : ℝ)), ((5 : ℝ), (5 : ℝ))] = Except.ok v) := by
  have h : calculate_distance ((0 : ℝ), (0 : ℝ)) ((1 : ℝ), (0 : ℝ)) ≠ 0 := by
    rw [calculate_distance_unit]
    norm_num
  exact ⟨h, C10_extra_points_ignored _ _ _ _ _ _ _ [] h⟩

/-- Claim C4: the EAR of the left-eye point set generated from center
(320,240) with width 20.0·0.95 = 19.0 and height 10.0·0.92 = 9.2 differs by
more than 0 from the EAR of the right-eye point set generated from center
(380,240) with width 20.0·1.05 = 21.0 and height 10.0·1.08 = 10.8, as in
`simulate_new_behavior`. -/
theorem C4_asymmetric_ears_differ :
    ∃ l r : ℝ,
      calculate_ear
          (generate_eye_points 320 240 (20.0 * 0.95) (10.0 * 0.92)) =
        Except.ok l ∧
      calculate_ear
          (generate_eye_points 380 240 (20.0 * 1.05) (10.0 * 1.08)) =
        Except.ok r ∧
      0 < |l - r| := by
  refine ⟨_, _, calculate_ear_generate _ _ _ _ (by norm_num),
    calculate_ear_generate _ _ _ _ (by norm_num), ?_⟩
  rw [abs_sub_pos]
  have e1 : ((20.0 : ℝ) * 0.95) ^ 2 / 16 + ((10.0 : ℝ) * 0.92) ^ 2 / 4 =
      17489 / 400 := by norm_num
  have e2 : ((20.0 : ℝ) * 0.95) ^ 2 / 4 + ((10.0 : ℝ) * 0.92) ^ 2 / 4 =
      11141 / 100 := by norm_num
  have e3 : ((20.0 : ℝ) * 1.05) ^ 2 / 16 + ((10.0 : ℝ) * 1.08) ^ 2 / 4 =
      22689 / 400 := by norm_num
  have e4 : ((20.0 : ℝ) * 1.05) ^ 2 / 4 + ((10.0 : ℝ) * 1.08) ^ 2 / 4 =
      13941 / 100 := by norm_num
  rw [e1, e2, e3, e4]
  have haL : Real.sqrt (17489 / 400) < 6.615 := by
    rw [Real.sqrt_lt' (by norm_num)]
    norm_num
  have haL0 : (0 : ℝ) ≤ Real.sqrt (17489 / 400) := Real.sqrt_nonneg _
  have hcL : (10.55 : ℝ) < Real.sqrt (11141 / 100) := by
    rw [Real.lt_sqrt (by norm_num)]
    norm_num
  have hcL0 : (0 : ℝ) < Real.sqrt (11141 / 100) := by linarith
  have hbR : (7.53 : ℝ) < Real.sqrt (22689 / 400) := by
    rw [Real.lt_sqrt (by norm_num)]
    norm_num
  have hdR : Real.sqrt (13941 / 100) < 11.81 := by
    rw [Real.sqrt_lt' (by norm_num)]
    norm_num
  have hdR0 : (0 : ℝ) < Real.sqrt (13941 / 100) :=
    Real.sqrt_pos.mpr (by norm_num)
  have hlt : (Real.sqrt (17489 / 400) + 20.0 * 0.95 / 4) /
      (2 * Real.sqrt (11141 / 100)) <
      (Real.sqrt (22689 / 400) + 20.0 * 1.05 / 4) /
      (2 * Real.sqrt (13941 / 100)) := by
    rw [div_lt_div_iff₀ (by linarith) (by linarith)]
    nlinarith [mul_nonneg (by linarith : (0 : ℝ) ≤ 6.615 - Real.sqrt (17489 / 400))
        (by linarith : (0 : ℝ) ≤ 11.81 - Real.sqrt (13941 / 100)),
      mul_nonneg (by linarith : (0 : ℝ) ≤ 6.615 - Real.sqrt (17489 / 400)) hdR0.le,
      mul_nonneg haL0 (by linarith : (0 : ℝ) ≤ 11.81 - Real.sqrt (13941 / 100)),
      mul_nonneg (by linarith : (0 : ℝ) ≤ Real.sqrt (22689 / 400) - 7.53)
        (by linarith : (0 : ℝ) ≤ Real.sqrt (11141 / 100) - 10.55),
      mul_nonneg (by linarith : (0 : ℝ) ≤ Real.sqrt (22689 / 400) - 7.53) hcL0.le,
      mul_nonneg (by linarith : (0 : ℝ) ≤ Real.sqrt (11141 / 100) - 10.55)
        (by linarith : (0 : ℝ) ≤ (7.53 : ℝ))]
  exact ne_of_lt hlt

/-- Claim C7 evaluation at the generator's own output for center (320,240),
width 20.0 and height 10.0: index 0 holds the left corner (310,240) while
index 3 holds the bottom-center point (320,245), so the two reference points
do not share a y-coordinate and the reference distance C is √125, not the
eye width 20. -/
theorem C7_reference_points_not_corners :
    (generate_eye_points 320 240 20.0 10.0)[0]? =
      some ((310 : ℝ), (240 : ℝ)) ∧
    (generate_eye_points 320 240 20.0 10.0)[3]? =
      some ((320 : ℝ), (245 : ℝ)) ∧
    ((240 : ℝ) ≠ (245 : ℝ)) ∧
    calculate_distance ((310 : ℝ), (240 : ℝ)) ((320 : ℝ), (245 : ℝ)) ≠ 20.0 := by
  refine ⟨?_, ?_, by norm_num, ?_⟩
  · show some ((320 - 20.0 / 2 : ℝ), (240 : ℝ)) = _
    norm_num
  · show some ((320 : ℝ), (240 + 10.0 / 2 : ℝ)) = _
    norm_num
  · intro hcontra
    have h1 : calculate_distance ((310 : ℝ), (240 : ℝ)) ((320 : ℝ), (245 : ℝ)) =
        Real.sqrt 125 := by
      unfold calculate_distance
      norm_num
    rw [h1] at hcontra
    have h2 : Real.sqrt 125 ^ 2 = 125 := Real.sq_sqrt (by norm_num)
    rw [hcontra] at h2
    norm_num at h2
